import Mathlib

/-!
Verification of the Net-Zero-House data load script (`load_data_to_db.py`).

The script reads a wide CSV (one row per timestamp, columns `Timestamp`,
ten global/outdoor measurement columns, and `<Zone>_<Measurement>` columns),
canonicalizes the timestamp, upserts zone and measurement reference rows
into a SQLite database with INSERT OR IGNORE, builds name-to-surrogate-key
lookup maps by querying the reference tables, bulk-inserts one outdoor fact
row per source row, and unpivots the zone columns into long
(Timestamp, ZoneID, MeasurementID, Value) fact rows.

This file shallowly embeds that pipeline: dataframes are lists of
association-list rows, cell values are an inductive type with an explicit
NaN constructor (pandas float NaN), the database is explicit state, and
parsing/IO failure is an `Except`-style sum. `pd.to_datetime` is external
library code, so the pipeline is parameterized by an arbitrary parse
function `Val → Option DateTime`; `strftime` of the fixed format string
is embedded concretely.
-/

namespace NetZero

/-- A cell value of the in-memory dataframe: a (rational-modelled) number,
the pandas float NaN sentinel, or a string (the canonicalized timestamp). -/
inductive Val where
  | num (q : Rat)
  | nan
  | str (s : String)
deriving DecidableEq, Repr

/-- A value as stored by SQLite: NULL, a number, or a string.  SQLite has no
NaN representation: binding a float NaN stores SQL NULL. -/
inductive SVal where
  | null
  | num (q : Rat)
  | str (s : String)
deriving DecidableEq, Repr

/-- One dataframe row: an association list from column name to cell value. -/
abbrev Row : Type := List (String × Val)

/-- The in-memory wide table produced by `pd.read_csv`. -/
structure DataFrame where
  columns : List String
  rows : List Row
deriving DecidableEq

/-- `row[col]`: cell access inside a dataframe row.  In the script every
access is guarded by a column-existence check, so the default for an absent
key is never observable on well-formed frames. -/
def getCell (r : Row) (c : String) : Val :=
  (List.lookup c r).getD Val.nan

/-- Python's substring test `pat in s` on character lists: `pat` occurs
contiguously somewhere in `l`. -/
def hasSubstr (pat : List Char) : List Char → Bool
  | [] => pat.isEmpty
  | c :: cs => pat.isPrefixOf (c :: cs) || hasSubstr pat cs

/-- Line 63: `[col for col in df.columns if '_temp' in col and col != 'Air_temperature']`
— columns carrying the zone-temperature marker substring, excluding the
global temperature column. -/
def zone_columns (df : DataFrame) : List String :=
  df.columns.filter (fun col =>
    hasSubstr "_temp".toList col.toList && col != "Air_temperature")

/-- `col.split('_')[0]`: the text before the first underscore (the whole
name when there is none). -/
def zoneOfCol (col : String) : String :=
  String.mk (col.toList.takeWhile (fun c => c != '_'))

/-- Line 65: `sorted(list(set([col.split('_')[0] for col in zone_columns])))`
— distinct zone prefixes, sorted lexicographically. -/
def zone_names (df : DataFrame) : List String :=
  List.insertionSort (· ≤ ·) ((zone_columns df).map zoneOfCol).dedup

/-- Lines 79-103: the static measurement catalog (name, unit), in the
script's insertion order. -/
def measurements_to_insert : List (String × String) :=
  [("temp", "C"), ("RH", "%"), ("CO2", "ppm"), ("valve_opening", "%"),
   ("window_opening", "%"), ("dew_point", "C"), ("temp_diff", "C"),
   ("RH_diff", "%"), ("Heat_Index", "C"), ("CO2_AQI", "AQI"),
   ("Condensation_Risk", "Risk Level"), ("Comfortable_Humidity", "Binary (0/1)"),
   ("Overheating_Risk", "Risk Level"), ("Cooling", "kW"), ("Heating", "kW"),
   ("Air_temperature", "C"), ("Relative_humidity", "%"), ("Wind_speed", "m/s"),
   ("Rain", "mm"), ("Solar_radiation", "W/m^2"), ("Lighting", "Lux"),
   ("outdoor_dew_point", "C"), ("Outdoor_Heat_Index", "C")]

/-- Lines 161-165: the ten measurement names reserved for the outdoor fact
table, skipped by the zone unpivot loop. -/
def global_measurements : List String :=
  ["Cooling", "Heating", "Air_temperature", "Relative_humidity",
   "Wind_speed", "Rain", "Solar_radiation", "Lighting",
   "outdoor_dew_point", "Outdoor_Heat_Index"]

/-- Lines 121-124: the fixed ordered column list of the outdoor fact table. -/
def outdoor_cols : List String :=
  ["Timestamp", "Cooling", "Heating", "Air_temperature", "Relative_humidity",
   "Wind_speed", "Rain", "Solar_radiation", "Lighting", "outdoor_dew_point",
   "Outdoor_Heat_Index"]

/-- Lines 126-129: `df[outdoor_cols]` followed by
`[tuple(row) for row in df_outdoor.values]`.  `df[outdoor_cols]` raises
KeyError when a requested column is absent (modelled as `none`, caught by
the script's generic handler); otherwise one tuple per source row, values
taken verbatim in the fixed column order. -/
def outdoor_data (df : DataFrame) : Option (List (List Val)) :=
  if outdoor_cols.all (fun c => df.columns.contains c) then
    some (df.rows.map (fun r => outdoor_cols.map (fun c => getCell r c)))
  else none

/-- Lines 175-179: `value = row[csv_col_name]; if pd.isna(value): value = None`.
The pandas NaN sentinel becomes an explicit SQL NULL; any other value is
passed through. -/
def nullifyVal : Val → SVal
  | Val.nan => SVal.null
  | Val.num q => SVal.num q
  | Val.str s => SVal.str s

/-- SQLite parameter binding: a float NaN has no SQLite representation and
is stored as NULL; numbers and strings are stored as themselves. -/
def bindVal : Val → SVal
  | Val.nan => SVal.null
  | Val.num q => SVal.num q
  | Val.str s => SVal.str s

/-- One transformed zone reading before insertion:
(timestamp cell, ZoneID, MeasurementID, value). -/
abbrev ZTuple : Type := Val × Nat × Nat × SVal

/-- Lines 159-182: the innermost step of the unpivot loop, for one
measurement-map entry `p = (measurement_name, measurement_id)`: skip global
measurements, probe the candidate column `<zone>_<measurement>`, and when it
exists emit one tuple with the NaN-to-NULL-normalized value. -/
def emitCell (df : DataFrame) (row : Row) (zname : String) (zone_id : Nat)
    (p : String × Nat) : List ZTuple :=
  if p.1 ∈ global_measurements then []
  else if (zname ++ "_" ++ p.1) ∈ df.columns then
    [(getCell row "Timestamp", zone_id, p.2,
      nullifyVal (getCell row (zname ++ "_" ++ p.1)))]
  else []

/-- Lines 151-182: one zone's emissions for one source row: resolve the zone
through the lookup map (an unresolved zone contributes nothing), then
iterate the measurement lookup map. -/
def emitZone (df : DataFrame) (row : Row) (zmap mmap : List (String × Nat))
    (zname : String) : List ZTuple :=
  match List.lookup zname zmap with
  | none => []
  | some zone_id => mmap.flatMap (emitCell df row zname zone_id)

/-- Lines 147-182: one source row's emissions: iterate the derived zones. -/
def emitRow (df : DataFrame) (zns : List String)
    (zmap mmap : List (String × Nat)) (row : Row) : List ZTuple :=
  zns.flatMap (emitZone df row zmap mmap)

/-- Lines 145-185: the unpivot accumulation loop.  For every source row,
every derived zone name (resolved through the zone lookup map; unresolved
zones are skipped), and every entry of the measurement lookup map that is
not a global measurement, probe the candidate column `<zone>_<measurement>`
and, when it exists, emit one tuple with the NaN-to-NULL-normalized value. -/
def zone_reading_data (df : DataFrame) (zns : List String)
    (zmap : List (String × Nat)) (mmap : List (String × Nat)) : List ZTuple :=
  df.rows.flatMap (emitRow df zns zmap mmap)

/-- Lines 152-156: the diagnostic printed when a derived zone name does not
resolve in the zone lookup map (once per source row per unresolved zone). -/
def zoneWarning (zname : String) : String :=
  "Warning: Zone " ++ zname ++ " not found in Zones table. Skipping data for this zone."

/-- The stream of unresolved-zone diagnostics emitted by the unpivot loop. -/
def zone_warnings (df : DataFrame) (zns : List String)
    (zmap : List (String × Nat)) : List String :=
  df.rows.flatMap (fun _row =>
    zns.filterMap (fun zname =>
      if List.lookup zname zmap = none then some (zoneWarning zname) else none))

/-! ### Database state -/

/-- The `Zones` table: rows `(ZoneID, ZoneName)` in rowid order. -/
abbrev ZonesTable : Type := List (Nat × String)

/-- The `Measurements` table: rows `(MeasurementID, MeasurementName, Unit)`
in rowid order. -/
abbrev MeasTable : Type := List (Nat × String × String)

/-- The next SQLite rowid for a table with the given existing ids. -/
def nextId (ids : List Nat) : Nat :=
  ids.foldr max 0 + 1

/-- Line 70: `INSERT OR IGNORE INTO Zones (ZoneName) VALUES (?)` — keyed by
the UNIQUE `ZoneName`: an existing name leaves the table untouched, a new
name is appended with a fresh id. -/
def insertZone (t : ZonesTable) (name : String) : ZonesTable :=
  if name ∈ t.map Prod.snd then t else t ++ [(nextId (t.map Prod.fst), name)]

/-- Lines 69-70: the zone-population loop. -/
def insertZones (t : ZonesTable) (names : List String) : ZonesTable :=
  names.foldl insertZone t

/-- Line 106: `INSERT OR IGNORE INTO Measurements (MeasurementName, Unit)` —
keyed by the UNIQUE `MeasurementName`; an existing name is silently skipped,
so its stored unit is never updated. -/
def insertMeas (t : MeasTable) (nu : String × String) : MeasTable :=
  if nu.1 ∈ t.map (fun r => r.2.1) then t
  else t ++ [(nextId (t.map Prod.fst), nu.1, nu.2)]

/-- Lines 105-106: the measurement-population loop. -/
def insertMeasList (t : MeasTable) (nus : List (String × String)) : MeasTable :=
  nus.foldl insertMeas t

/-- Line 114: `{row['ZoneName']: row['ZoneID'] for row in SELECT ...}` —
the in-memory zone lookup map, in table order. -/
def zone_id_map (t : ZonesTable) : List (String × Nat) :=
  t.map (fun r => (r.2, r.1))

/-- Line 115: the in-memory measurement lookup map, in table order. -/
def measurement_id_map (t : MeasTable) : List (String × Nat) :=
  t.map (fun r => (r.2.1, r.1))

/-- A stored zone-reading fact row. -/
abbrev SZTuple : Type := SVal × Nat × Nat × SVal

/-- The four tables of the database. -/
structure DbState where
  zones : ZonesTable
  measurements : MeasTable
  outdoor : List (List SVal)
  zoneReadings : List SZTuple
deriving DecidableEq

/-- Binding one transformed zone tuple into the fact table. -/
def bindTuple (t : ZTuple) : SZTuple :=
  (bindVal t.1, t.2.1, t.2.2.1, t.2.2.2)

/-- Lines 56-194: the database phase of a run on an already-loaded and
timestamp-canonicalized frame.  Upserts the reference tables, builds the
lookup maps from the database, bulk-inserts the outdoor batch, then the
unpivoted zone batch.  When the outdoor column selection raises (a listed
column is absent), the run aborts after the committed reference inserts;
the returned strings are the unresolved-zone diagnostics. -/
def runPipeline (db : DbState) (df : DataFrame) : DbState × List String :=
  let zns := zone_names df
  let zt := insertZones db.zones zns
  let mt := insertMeasList db.measurements measurements_to_insert
  let zmap := zone_id_map zt
  let mmap := measurement_id_map mt
  match outdoor_data df with
  | none => ({ db with zones := zt, measurements := mt }, [])
  | some od =>
    let tuples := zone_reading_data df zns zmap mmap
    ({ db with
        zones := zt
        measurements := mt
        outdoor := db.outdoor ++ od.map (List.map bindVal)
        zoneReadings := db.zoneReadings ++ tuples.map bindTuple },
     zone_warnings df zns zmap)

/-! ### Timestamp canonicalization -/

/-- A parsed date-time as produced by `pd.to_datetime` on one cell. -/
structure DateTime where
  year : Nat
  month : Nat
  day : Nat
  hour : Nat
  minute : Nat
  second : Nat
deriving DecidableEq, Repr

/-- Field bounds guaranteed by any real parsed timestamp (pandas timestamps
lie between years 1677 and 2262; all other fields are calendar-bounded). -/
def DateTime.InRange (dt : DateTime) : Prop :=
  dt.year ≤ 9999 ∧ dt.month ≤ 99 ∧ dt.day ≤ 99 ∧
  dt.hour ≤ 99 ∧ dt.minute ≤ 99 ∧ dt.second ≤ 99

instance (dt : DateTime) : Decidable dt.InRange := by
  unfold DateTime.InRange; infer_instance

/-- Zero-padded two-digit rendering of `n ≤ 99` (`%m`, `%d`, `%H`, `%M`, `%S`). -/
def pad2 (n : Nat) : List Char :=
  [Nat.digitChar (n / 10 % 10), Nat.digitChar (n % 10)]

/-- Zero-padded four-digit rendering of `n ≤ 9999` (`%Y`). -/
def pad4 (n : Nat) : List Char :=
  [Nat.digitChar (n / 1000 % 10), Nat.digitChar (n / 100 % 10),
   Nat.digitChar (n / 10 % 10), Nat.digitChar (n % 10)]

/-- Line 39: `.dt.strftime('%Y-%m-%d %H:%M:%S')`. -/
def strftimeCanon (dt : DateTime) : String :=
  String.mk (pad4 dt.year ++ '-' :: pad2 dt.month ++ '-' :: pad2 dt.day ++
    ' ' :: pad2 dt.hour ++ ':' :: pad2 dt.minute ++ ':' :: pad2 dt.second)

/-- Recognizer for the canonical `YYYY-MM-DD HH:MM:SS` shape. -/
def isCanonicalTs (s : String) : Bool :=
  match s.toList with
  | [y1, y2, y3, y4, '-', m1, m2, '-', d1, d2, ' ',
     h1, h2, ':', n1, n2, ':', s1, s2] =>
    [y1, y2, y3, y4, m1, m2, d1, d2, h1, h2, n1, n2, s1, s2].all Char.isDigit
  | _ => false

/-- Column assignment `df['Timestamp'] = <canonical string>` restricted to
one row: the Timestamp cell is replaced (or created) with the formatted
parse result; a row whose cell does not parse is left unchanged (such a
frame is rejected upstream). -/
def canonRow (parse : Val → Option DateTime) (r : Row) : Row :=
  match parse (getCell r "Timestamp") with
  | some dt => ("Timestamp", Val.str (strftimeCanon dt)) ::
      r.filter (fun p => p.1 != "Timestamp")
  | none => r

/-- Lines 36-39: `df['Timestamp'] = pd.to_datetime(df['Timestamp'])` then
`strftime`.  Reading a missing Timestamp column raises KeyError and a
non-parsing cell raises in `to_datetime`; both are modelled as `none`
(caught by the script's generic except-clause). -/
def canonTimestamps (parse : Val → Option DateTime) (df : DataFrame) :
    Option DataFrame :=
  if "Timestamp" ∈ df.columns ∧
      df.rows.all (fun r => (parse (getCell r "Timestamp")).isSome) then
    some { columns := df.columns, rows := df.rows.map (canonRow parse) }
  else none

/-! ### The load entry point -/

/-- The outcomes of `pd.read_csv` distinguished by lines 41-52:
`FileNotFoundError`, `pd.errors.EmptyDataError`, or any other exception. -/
inductive ReadError where
  | fileNotFound
  | emptyData
  | otherError
deriving DecidableEq, Repr

/-- The spec's fatal source-error taxonomy. -/
inductive LoadError where
  | sourceNotFound
  | sourceEmpty
  | sourceMalformed
deriving DecidableEq, Repr

/-- Lines 24-194: the whole run.  A read or timestamp-canonicalization
failure exits before `get_db_connection()` is ever called, leaving the
database untouched; on success the database phase runs. -/
def runLoad (parse : Val → Option DateTime) (src : Except ReadError DataFrame)
    (db : DbState) : DbState × List String × Option LoadError :=
  match src with
  | Except.error ReadError.fileNotFound => (db, [], some LoadError.sourceNotFound)
  | Except.error ReadError.emptyData => (db, [], some LoadError.sourceEmpty)
  | Except.error ReadError.otherError => (db, [], some LoadError.sourceMalformed)
  | Except.ok df =>
    match canonTimestamps parse df with
    | none => (db, [], some LoadError.sourceMalformed)
    | some df2 =>
      let p := runPipeline db df2
      (p.1, p.2, none)

/-! ### Concrete test fixtures -/

/-- A small concrete source row: one timestamp, zone Z1 with a measured
temperature and a NaN CO2 reading, and all ten global columns. -/
def wRow : Row :=
  [("Timestamp", Val.str "2024-01-01 00:00:00"),
   ("Z1_temp", Val.num 21), ("Z1_CO2", Val.nan),
   ("Cooling", Val.num 0), ("Heating", Val.num 1),
   ("Air_temperature", Val.num 5), ("Relative_humidity", Val.num 50),
   ("Wind_speed", Val.num 2), ("Rain", Val.nan),
   ("Solar_radiation", Val.num 100), ("Lighting", Val.num 300),
   ("outdoor_dew_point", Val.num 3), ("Outdoor_Heat_Index", Val.num 4)]

/-- A small concrete source frame with one row. -/
def wdf : DataFrame :=
  { columns :=
      ["Timestamp", "Z1_temp", "Z1_CO2", "Cooling", "Heating",
       "Air_temperature", "Relative_humidity", "Wind_speed", "Rain",
       "Solar_radiation", "Lighting", "outdoor_dew_point", "Outdoor_Heat_Index"],
    rows := [wRow] }

/-- `wdf` with its columns listed in reverse order (same rows). -/
def wdfPerm : DataFrame :=
  { columns := wdf.columns.reverse, rows := wdf.rows }

/-- A parse function fixture: any string cell parses to midnight 2024-01-01. -/
def wParse : Val → Option DateTime
  | Val.str _ => some ⟨2024, 1, 1, 0, 0, 0⟩
  | _ => none

/-- The empty database. -/
def emptyDb : DbState :=
  { zones := [], measurements := [], outdoor := [], zoneReadings := [] }

/-- A database holding a pre-existing zone `ZX` that no source temperature
column mentions. -/
def c10db : DbState :=
  { zones := [(1, "ZX")], measurements := [], outdoor := [], zoneReadings := [] }

/-- A frame with a probe-able `ZX_CO2` column but no `ZX` temperature
column, so `ZX` is not among the derived zone names. -/
def c10df : DataFrame :=
  { columns := outdoor_cols ++ ["ZX_CO2"],
    rows := [[("Timestamp", Val.str "2024-01-01 00:00:00"),
              ("ZX_CO2", Val.num 4)]] }

/-- A database holding a pre-existing measurement `PM25` that is absent from
the static catalog. -/
def c10wdb : DbState :=
  { zones := [], measurements := [(1, "PM25", "ugm3")], outdoor := [],
    zoneReadings := [] }

/-- A frame with zone `ZX` (via `ZX_temp`) and a `ZX_PM25` column matching
the database-only measurement. -/
def c10wdf : DataFrame :=
  { columns := outdoor_cols ++ ["ZX_temp", "ZX_PM25"],
    rows := [[("Timestamp", Val.str "2024-01-01 00:00:00"),
              ("ZX_temp", Val.num 20), ("ZX_PM25", Val.num 7)]] }

/-- A header-only source: the parse yields a table with named columns but
zero data rows.  Pandas raises EmptyDataError only for a file with nothing
to parse, so a header-only CSV arrives as a successful read. -/
def c9df : DataFrame :=
  { columns := outdoor_cols ++ ["Z1_temp"], rows := [] }

end NetZero

namespace NetZero

/-! ### General list lemmas -/

theorem countP_flatMap {α β : Type} (p : β → Bool) (f : α → List β) (l : List α) :
    List.countP p (l.flatMap f) = (l.map (fun a => List.countP p (f a))).sum := by
  induction l with
  | nil => simp
  | cons a l ih => simp [List.countP_append, ih]

theorem lookup_of_mem_keys {l : List (String × Nat)} {a : String}
    (h : a ∈ l.map Prod.fst) : ∃ b, List.lookup a l = some b := by
  have hs : (List.lookup a l).isSome := by
    rw [List.lookup_isSome_iff]
    obtain ⟨p, hp, he⟩ := List.mem_map.1 h
    exact ⟨p, hp, by simp [he]⟩
  exact Option.isSome_iff_exists.mp hs

theorem entry_unique_of_keys_nodup {l : List (String × Nat)}
    (hnd : (l.map Prod.fst).Nodup) {p q : String × Nat}
    (hp : p ∈ l) (hq : q ∈ l) (hk : p.1 = q.1) : p = q := by
  induction l with
  | nil => simp at hp
  | cons r l ih =>
    simp only [List.map_cons, List.nodup_cons] at hnd
    rcases List.mem_cons.1 hp with rfl | hp₂
    · rcases List.mem_cons.1 hq with rfl | hq₂
      · rfl
      · exact absurd (hk ▸ List.mem_map_of_mem Prod.fst hq₂) hnd.1
    · rcases List.mem_cons.1 hq with rfl | hq₂
      · exact absurd (hk ▸ List.mem_map_of_mem Prod.fst hp₂) hnd.1
      · exact ih hnd.2 hp₂ hq₂

theorem sum_map_single {α : Type} (l : List α) (f : α → Nat) (g : α → Bool) (c : Nat)
    (hcount : List.countP g l = 1)
    (h0 : ∀ a ∈ l, g a = false → f a = 0)
    (hc : ∀ a ∈ l, g a = true → f a = c) :
    (l.map f).sum = c := by
  induction l with
  | nil => simp at hcount
  | cons a l ih =>
    by_cases hg : g a
    · rw [List.countP_cons_of_pos _ _ hg] at hcount
      have hl0 : List.countP g l = 0 := by omega
      have hz : ∀ x ∈ l.map f, x = 0 := by
        intro x hx
        obtain ⟨b, hb, rfl⟩ := List.mem_map.1 hx
        have hgb := List.countP_eq_zero.mp hl0 b hb
        exact h0 b (List.mem_cons_of_mem _ hb) (by simpa using hgb)
      have hsum : (l.map f).sum = 0 := List.sum_eq_zero hz
      simp [hc a (List.mem_cons_self a l) hg, hsum]
    · rw [List.countP_cons_of_neg _ _ hg] at hcount
      have hfa : f a = 0 := h0 a (List.mem_cons_self a l) (by simpa using hg)
      have := ih hcount (fun b hb => h0 b (List.mem_cons_of_mem _ hb))
        (fun b hb => hc b (List.mem_cons_of_mem _ hb))
      simp [hfa, this]

/-! ### Characterizations of the unpivot -/

theorem mem_emitCell {df : DataFrame} {row : Row} {zname : String} {zone_id : Nat}
    {p : String × Nat} {t : ZTuple} :
    t ∈ emitCell df row zname zone_id p ↔
      p.1 ∉ global_measurements ∧ (zname ++ "_" ++ p.1) ∈ df.columns ∧
      t = (getCell row "Timestamp", zone_id, p.2,
           nullifyVal (getCell row (zname ++ "_" ++ p.1))) := by
  unfold emitCell
  split_ifs with h1 h2 <;> simp [*]

theorem mem_emitZone {df : DataFrame} {row : Row} {zmap mmap : List (String × Nat)}
    {zname : String} {t : ZTuple} :
    t ∈ emitZone df row zmap mmap zname ↔
      ∃ zone_id, List.lookup zname zmap = some zone_id ∧
        ∃ p ∈ mmap, t ∈ emitCell df row zname zone_id p := by
  unfold emitZone
  cases h : List.lookup zname zmap with
  | none => simp
  | some zone_id => simp [List.mem_flatMap]

theorem mem_zone_reading_data {df : DataFrame} {zns : List String}
    {zmap mmap : List (String × Nat)} {t : ZTuple} :
    t ∈ zone_reading_data df zns zmap mmap ↔
      ∃ row ∈ df.rows, ∃ zname ∈ zns, ∃ zone_id,
        List.lookup zname zmap = some zone_id ∧
        ∃ p ∈ mmap, p.1 ∉ global_measurements ∧
          (zname ++ "_" ++ p.1) ∈ df.columns ∧
          t = (getCell row "Timestamp", zone_id, p.2,
               nullifyVal (getCell row (zname ++ "_" ++ p.1))) := by
  unfold zone_reading_data emitRow
  simp only [List.mem_flatMap, mem_emitZone, mem_emitCell]

theorem countP_emitCell_key {df : DataFrame} {row : Row} {z m : String} {zid mid : Nat}
    (hg : m ∉ global_measurements) :
    List.countP (fun t => t.2.1 == zid && t.2.2.1 == mid)
      (emitCell df row z zid (m, mid)) =
      if (z ++ "_" ++ m) ∈ df.columns then 1 else 0 := by
  unfold emitCell
  by_cases hc : (z ++ "_" ++ m) ∈ df.columns <;> simp [hg, hc]

theorem countP_emitCell_other {df : DataFrame} {row : Row} {z m : String}
    {zid mid : Nat} {p' : String × Nat}
    (hne : p'.1 ≠ m) (hminj_p : p'.2 = mid → p'.1 = m) :
    List.countP (fun t => t.2.1 == zid && t.2.2.1 == mid)
      (emitCell df row z zid p') = 0 := by
  rw [List.countP_eq_zero]
  intro t ht
  obtain ⟨_, _, rfl⟩ := mem_emitCell.1 ht
  simp only [Bool.and_eq_true, beq_iff_eq, not_and]
  intro _ he
  exact hne (hminj_p he)

theorem countP_emitZone_self {df : DataFrame} {row : Row}
    {zmap mmap : List (String × Nat)} {z m : String} {zid mid : Nat}
    (hlz : List.lookup z zmap = some zid)
    (hm : (m, mid) ∈ mmap) (hmnd : (mmap.map Prod.fst).Nodup)
    (hminj : ∀ p ∈ mmap, p.2 = mid → p.1 = m)
    (hg : m ∉ global_measurements) :
    List.countP (fun t => t.2.1 == zid && t.2.2.1 == mid)
      (emitZone df row zmap mmap z) =
      if (z ++ "_" ++ m) ∈ df.columns then 1 else 0 := by
  unfold emitZone
  rw [hlz, countP_flatMap]
  refine sum_map_single _ _ (fun p => p.1 == m) _ ?_ ?_ ?_
  · have h1 : m ∈ mmap.map Prod.fst := List.mem_map_of_mem _ hm
    have h2 := List.count_eq_one_of_mem hmnd h1
    rw [← h2, List.count, List.countP_map]
    rfl
  · intro p' hp' hgp'
    exact countP_emitCell_other (by simpa using hgp') (fun he => hminj p' hp' he)
  · intro p' hp' hgp'
    have hkey : p'.1 = m := by simpa using hgp'
    have hpe : p' = (m, mid) := entry_unique_of_keys_nodup hmnd hp' hm hkey
    rw [hpe]
    exact countP_emitCell_key hg

theorem countP_emitZone_other {df : DataFrame} {row : Row}
    {zmap mmap : List (String × Nat)} {z' z : String} {zid mid : Nat}
    (hne : z' ≠ z) (hz' : List.lookup z' zmap = some zid → z' = z) :
    List.countP (fun t => t.2.1 == zid && t.2.2.1 == mid)
      (emitZone df row zmap mmap z') = 0 := by
  rw [List.countP_eq_zero]
  intro t ht
  obtain ⟨zone_id, hlk, p, hp, htc⟩ := mem_emitZone.1 ht
  obtain ⟨_, _, rfl⟩ := mem_emitCell.1 htc
  simp only [Bool.and_eq_true, beq_iff_eq, not_and]
  intro h1 _
  exact hne (hz' (h1 ▸ hlk))

theorem countP_emitRow_eq {df : DataFrame} {zns : List String}
    {zmap mmap : List (String × Nat)} {row : Row} {z m : String} {zid mid : Nat}
    (hz : z ∈ zns) (hznd : zns.Nodup)
    (hlz : List.lookup z zmap = some zid)
    (hzinj : ∀ z' ∈ zns, List.lookup z' zmap = some zid → z' = z)
    (hm : (m, mid) ∈ mmap) (hmnd : (mmap.map Prod.fst).Nodup)
    (hminj : ∀ p ∈ mmap, p.2 = mid → p.1 = m)
    (hg : m ∉ global_measurements) :
    List.countP (fun t => t.2.1 == zid && t.2.2.1 == mid)
      (emitRow df zns zmap mmap row) =
      if (z ++ "_" ++ m) ∈ df.columns then 1 else 0 := by
  unfold emitRow
  rw [countP_flatMap]
  refine sum_map_single _ _ (fun z' => z' == z) _ ?_ ?_ ?_
  · have := List.count_eq_one_of_mem hznd hz
    rw [← this, List.count]
  · intro z' hz' hgz'
    exact countP_emitZone_other (by simpa using hgz') (fun hlk => hzinj z' hz' hlk)
  · intro z' hz' hgz'
    have hze : z' = z := by simpa using hgz'
    subst hze
    exact countP_emitZone_self hlz hm hmnd hminj hg

theorem countP_zone_reading_data_eq {df : DataFrame} {zns : List String}
    {zmap mmap : List (String × Nat)} {z m : String} {zid mid : Nat}
    (hz : z ∈ zns) (hznd : zns.Nodup)
    (hlz : List.lookup z zmap = some zid)
    (hzinj : ∀ z' ∈ zns, List.lookup z' zmap = some zid → z' = z)
    (hm : (m, mid) ∈ mmap) (hmnd : (mmap.map Prod.fst).Nodup)
    (hminj : ∀ p ∈ mmap, p.2 = mid → p.1 = m)
    (hg : m ∉ global_measurements) :
    List.countP (fun t => t.2.1 == zid && t.2.2.1 == mid)
      (zone_reading_data df zns zmap mmap) =
      if (z ++ "_" ++ m) ∈ df.columns then df.rows.length else 0 := by
  unfold zone_reading_data
  induction df.rows with
  | nil => by_cases hc : (z ++ "_" ++ m) ∈ df.columns <;> simp [hc]
  | cons r rows ih =>
    rw [List.flatMap_cons, List.countP_append, ih,
      countP_emitRow_eq hz hznd hlz hzinj hm hmnd hminj hg]
    by_cases hc : (z ++ "_" ++ m) ∈ df.columns <;> simp [hc]
    omega

/-! ### Reference-table lemmas -/

theorem mem_insertZone_keys {t : ZonesTable} {n x : String} :
    x ∈ (insertZone t n).map Prod.snd ↔ x ∈ t.map Prod.snd ∨ x = n := by
  unfold insertZone
  split_ifs with h
  · constructor
    · exact Or.inl
    · rintro (hx | rfl)
      · exact hx
      · exact h
  · simp

theorem mem_insertZones_keys {t : ZonesTable} {ns : List String} {x : String} :
    x ∈ (insertZones t ns).map Prod.snd ↔ x ∈ t.map Prod.snd ∨ x ∈ ns := by
  induction ns generalizing t with
  | nil => simp [insertZones]
  | cons n ns ih =>
    show x ∈ (insertZones (insertZone t n) ns).map Prod.snd ↔ _
    rw [ih, mem_insertZone_keys]
    simp only [List.mem_cons]
    tauto

theorem insertZone_of_mem {t : ZonesTable} {n : String}
    (h : n ∈ t.map Prod.snd) : insertZone t n = t := by
  unfold insertZone
  simp [h]

theorem insertZones_of_all_mem {t : ZonesTable} {ns : List String}
    (h : ∀ n ∈ ns, n ∈ t.map Prod.snd) : insertZones t ns = t := by
  induction ns with
  | nil => rfl
  | cons n ns ih =>
    show insertZones (insertZone t n) ns = t
    rw [insertZone_of_mem (h n (List.mem_cons_self n ns))]
    exact ih (fun x hx => h x (List.mem_cons_of_mem _ hx))

theorem mem_insertMeas_keys {t : MeasTable} {nu : String × String} {x : String} :
    x ∈ (insertMeas t nu).map (fun r => r.2.1) ↔
      x ∈ t.map (fun r => r.2.1) ∨ x = nu.1 := by
  unfold insertMeas
  split_ifs with h
  · constructor
    · exact Or.inl
    · rintro (hx | rfl)
      · exact hx
      · exact h
  · simp

theorem insertMeas_of_mem {t : MeasTable} {nu : String × String}
    (h : nu.1 ∈ t.map (fun r => r.2.1)) : insertMeas t nu = t := by
  unfold insertMeas
  simp [h]

theorem mem_insertMeasList_keys {t : MeasTable} {nus : List (String × String)}
    {x : String} :
    x ∈ (insertMeasList t nus).map (fun r => r.2.1) ↔
      x ∈ t.map (fun r => r.2.1) ∨ x ∈ nus.map Prod.fst := by
  induction nus generalizing t with
  | nil => simp [insertMeasList]
  | cons nu nus ih =>
    show x ∈ (insertMeasList (insertMeas t nu) nus).map (fun r => r.2.1) ↔ _
    rw [ih, mem_insertMeas_keys]
    simp only [List.map_cons, List.mem_cons]
    tauto

theorem insertMeasList_of_all_mem {t : MeasTable} {nus : List (String × String)}
    (h : ∀ nu ∈ nus, nu.1 ∈ t.map (fun r => r.2.1)) : insertMeasList t nus = t := by
  induction nus with
  | nil => rfl
  | cons nu nus ih =>
    show insertMeasList (insertMeas t nu) nus = t
    rw [insertMeas_of_mem (h nu (List.mem_cons_self nu nus))]
    exact ih (fun x hx => h x (List.mem_cons_of_mem _ hx))

theorem insertMeas_mem_of_mem {t : MeasTable} {nu : String × String}
    {r : Nat × String × String} (h : r ∈ t) : r ∈ insertMeas t nu := by
  unfold insertMeas
  split_ifs with hcond
  · exact h
  · exact List.mem_append_left _ h

theorem insertMeasList_mem_of_mem {t : MeasTable} {nus : List (String × String)}
    {r : Nat × String × String} (h : r ∈ t) : r ∈ insertMeasList t nus := by
  induction nus generalizing t with
  | nil => exact h
  | cons nu nus ih =>
    show r ∈ insertMeasList (insertMeas t nu) nus
    exact ih (insertMeas_mem_of_mem h)

/-! ### Canonical-timestamp lemmas -/

theorem digitChar_mod_isDigit (n : Nat) : (Nat.digitChar (n % 10)).isDigit = true := by
  have h : n % 10 < 10 := Nat.mod_lt _ (by norm_num)
  set k := n % 10 with hk
  interval_cases k <;> rfl

theorem isCanonical_strftime (dt : DateTime) :
    isCanonicalTs (strftimeCanon dt) = true := by
  unfold isCanonicalTs strftimeCanon pad4 pad2
  simp [digitChar_mod_isDigit]

theorem getCell_canonRow {parse : Val → Option DateTime} {r : Row}
    (h : (parse (getCell r "Timestamp")).isSome) :
    ∃ dt, parse (getCell r "Timestamp") = some dt ∧
      getCell (canonRow parse r) "Timestamp" = Val.str (strftimeCanon dt) := by
  obtain ⟨dt, hdt⟩ := Option.isSome_iff_exists.mp h
  refine ⟨dt, hdt, ?_⟩
  unfold canonRow
  rw [hdt]
  unfold getCell
  rw [List.lookup_cons_self]
  rfl

theorem canonTimestamps_eq_some {parse : Val → Option DateTime}
    {df df2 : DataFrame} (h : canonTimestamps parse df = some df2) :
    "Timestamp" ∈ df.columns ∧
    (∀ r ∈ df.rows, (parse (getCell r "Timestamp")).isSome) ∧
    df2.columns = df.columns ∧ df2.rows = df.rows.map (canonRow parse) := by
  unfold canonTimestamps at h
  split_ifs at h with hcond
  · obtain ⟨h1, h2⟩ := hcond
    injection h with h
    subst h
    exact ⟨h1, fun r hr => by simpa using List.all_eq_true.mp h2 r hr, rfl, rfl⟩

theorem outdoor_data_eq_some {df : DataFrame} {od : List (List Val)}
    (h : outdoor_data df = some od) :
    od = df.rows.map (fun r => outdoor_cols.map (fun c => getCell r c)) ∧
    ∀ c ∈ outdoor_cols, c ∈ df.columns := by
  unfold outdoor_data at h
  split_ifs at h with hcond
  · injection h with h
    refine ⟨h.symm, fun c hc => ?_⟩
    have := List.all_eq_true.mp hcond c hc
    simpa using this

/-! ### Claims -/

/-- C1: Zone unpivot sparse correctness.  For every source row, known zone
`z` (with resolved surrogate key `zid`), and zone-local measurement-map
entry `(m, mid)`, the batch contains exactly one tuple per source row with
keys `(zid, mid)` when the column `<z>_<m>` exists in the source table, and
none when it is absent; every such tuple carries the row's timestamp and
the NaN-normalized cell value. -/
theorem c1_zone_unpivot_sparse {df : DataFrame} {zns : List String}
    {zmap mmap : List (String × Nat)} {z m : String} {zid mid : Nat}
    (hz : z ∈ zns) (hznd : zns.Nodup)
    (hlz : List.lookup z zmap = some zid)
    (hzinj : ∀ z' ∈ zns, List.lookup z' zmap = some zid → z' = z)
    (hm : (m, mid) ∈ mmap) (hmnd : (mmap.map Prod.fst).Nodup)
    (hminj : ∀ p ∈ mmap, p.2 = mid → p.1 = m)
    (hg : m ∉ global_measurements) :
    List.countP (fun t => t.2.1 == zid && t.2.2.1 == mid)
        (zone_reading_data df zns zmap mmap) =
      (if (z ++ "_" ++ m) ∈ df.columns then df.rows.length else 0) ∧
    ∀ t ∈ zone_reading_data df zns zmap mmap,
      t.2.1 = zid → t.2.2.1 = mid →
      ∃ row ∈ df.rows,
        t = (getCell row "Timestamp", zid, mid,
             nullifyVal (getCell row (z ++ "_" ++ m))) := by
  refine ⟨countP_zone_reading_data_eq hz hznd hlz hzinj hm hmnd hminj hg, ?_⟩
  intro t ht h1 h2
  obtain ⟨row, hrow, zname, hzm, zone_id, hlk, p, hp, hpg, hpc, rfl⟩ :=
    mem_zone_reading_data.1 ht
  simp only at h1 h2
  subst h1
  have hzz : zname = z := hzinj zname hzm hlk
  subst hzz
  have hpm : p.1 = m := hminj p hp h2
  obtain ⟨pn, pid⟩ := p
  simp only at hpm h2
  subst hpm
  subst h2
  exact ⟨row, hrow, rfl⟩

/-- C1 witness: with a one-row source holding `Z1_temp` and `Z1_CO2`,
zone `Z1` and measurement `CO2` produce exactly one tuple, the NaN CO2
cell normalized to NULL. -/
theorem c1_witness :
    List.countP (fun t => t.2.1 == 1 && t.2.2.1 == 3)
        (zone_reading_data wdf ["Z1"] [("Z1", 1)]
          [("temp", 1), ("CO2", 3), ("Cooling", 14)]) =
      (if ("Z1" ++ "_" ++ "CO2") ∈ wdf.columns then wdf.rows.length else 0) ∧
    ∀ t ∈ zone_reading_data wdf ["Z1"] [("Z1", 1)]
        [("temp", 1), ("CO2", 3), ("Cooling", 14)],
      t.2.1 = 1 → t.2.2.1 = 3 →
      ∃ row ∈ wdf.rows,
        t = (getCell row "Timestamp", 1, 3,
             nullifyVal (getCell row ("Z1" ++ "_" ++ "CO2"))) :=
  c1_zone_unpivot_sparse (by decide) (by decide) (by decide) (by decide)
    (by decide) (by decide) (by decide) (by decide)

/-- C2: Outdoor extraction completeness.  The outdoor batch has exactly one
tuple per source row, each tuple being the source row's values at the fixed
column list `Timestamp, Cooling, ..., Outdoor_Heat_Index` in order. -/
theorem c2_outdoor_extraction {df : DataFrame} {od : List (List Val)}
    (h : outdoor_data df = some od) :
    od.length = df.rows.length ∧
    ∀ i (hi : i < df.rows.length),
      od[i]? = some (outdoor_cols.map (fun c => getCell (df.rows.get ⟨i, hi⟩) c)) := by
  obtain ⟨hod, _⟩ := outdoor_data_eq_some h
  subst hod
  refine ⟨by simp, fun i hi => ?_⟩
  rw [List.getElem?_map, List.getElem?_eq_getElem hi]
  simp

/-- C2 witness: on the one-row fixture frame the outdoor batch is the single
11-tuple of the row's global values (timestamp string first). -/
theorem c2_witness :
    ([[Val.str "2024-01-01 00:00:00", Val.num 0, Val.num 1, Val.num 5,
       Val.num 50, Val.num 2, Val.nan, Val.num 100, Val.num 300,
       Val.num 3, Val.num 4]] : List (List Val)).length = wdf.rows.length ∧
    ∀ i (hi : i < wdf.rows.length),
      ([[Val.str "2024-01-01 00:00:00", Val.num 0, Val.num 1, Val.num 5,
         Val.num 50, Val.num 2, Val.nan, Val.num 100, Val.num 300,
         Val.num 3, Val.num 4]] : List (List Val))[i]? =
        some (outdoor_cols.map (fun c => getCell (wdf.rows.get ⟨i, hi⟩) c)) :=
  c2_outdoor_extraction (by decide)

/-- C3: Null normalization.  Every zone-fact value is the NaN-normalization
of its source cell (NaN becomes SQL NULL); the stored outdoor rows are the
SQLite binding of the emitted batch, under which NaN likewise stores as
NULL; and NULL is neither a number (in particular not zero) nor a string. -/
theorem c3_null_normalization (db : DbState) {df : DataFrame}
    (zns : List String) (zmap mmap : List (String × Nat))
    {od : List (List Val)} (hod : outdoor_data df = some od) :
    (∀ t ∈ zone_reading_data df zns zmap mmap,
       ∃ row ∈ df.rows, ∃ c, t.2.2.2 = nullifyVal (getCell row c)) ∧
    nullifyVal Val.nan = SVal.null ∧
    (runPipeline db df).1.outdoor = db.outdoor ++ od.map (List.map bindVal) ∧
    bindVal Val.nan = SVal.null ∧
    (∀ q : Rat, SVal.null ≠ SVal.num q) ∧
    (∀ s : String, SVal.null ≠ SVal.str s) := by
  refine ⟨?_, rfl, ?_, rfl, ?_, ?_⟩
  · intro t ht
    obtain ⟨row, hrow, zname, _, zone_id, _, p, _, _, _, rfl⟩ :=
      mem_zone_reading_data.1 ht
    exact ⟨row, hrow, zname ++ "_" ++ p.1, rfl⟩
  · unfold runPipeline
    simp only [hod]
  · intro q h
    cases h
  · intro s h
    cases h

/-- C3 witness: instantiated on the fixture frame, whose `Z1_CO2` and `Rain`
cells are NaN. -/
theorem c3_witness :
    (∀ t ∈ zone_reading_data wdf ["Z1"] [("Z1", 1)] [("temp", 1), ("CO2", 3)],
       ∃ row ∈ wdf.rows, ∃ c, t.2.2.2 = nullifyVal (getCell row c)) ∧
    nullifyVal Val.nan = SVal.null ∧
    (runPipeline emptyDb wdf).1.outdoor = emptyDb.outdoor ++
      [[Val.str "2024-01-01 00:00:00", Val.num 0, Val.num 1, Val.num 5,
        Val.num 50, Val.num 2, Val.nan, Val.num 100, Val.num 300,
        Val.num 3, Val.num 4]].map (List.map bindVal) ∧
    bindVal Val.nan = SVal.null ∧
    (∀ q : Rat, SVal.null ≠ SVal.num q) ∧
    (∀ s : String, SVal.null ≠ SVal.str s) :=
  c3_null_normalization emptyDb ["Z1"] [("Z1", 1)] [("temp", 1), ("CO2", 3)]
    (by decide)

/-- C4: Idempotent reference upsert.  Running the zone and measurement
insertion loops twice yields the same reference tables as running them
once; inserting a name already present (with any unit) leaves the table
unchanged (no update, no failure). -/
theorem c4_idempotent_upsert (zt : ZonesTable) (mt : MeasTable)
    (ns : List String) (nus : List (String × String)) :
    insertZones (insertZones zt ns) ns = insertZones zt ns ∧
    insertMeasList (insertMeasList mt nus) nus = insertMeasList mt nus ∧
    (∀ n, n ∈ zt.map Prod.snd → insertZone zt n = zt) ∧
    (∀ nu : String × String, nu.1 ∈ mt.map (fun r => r.2.1) →
      insertMeas mt nu = mt) := by
  refine ⟨?_, ?_, fun n h => insertZone_of_mem h, fun nu h => insertMeas_of_mem h⟩
  · exact insertZones_of_all_mem (fun n hn => mem_insertZones_keys.2 (Or.inr hn))
  · exact insertMeasList_of_all_mem
      (fun nu hnu => mem_insertMeasList_keys.2 (Or.inr (List.mem_map_of_mem _ hnu)))

/-- C4 witness: instantiated on concrete tables, including a duplicate name
carrying a different unit. -/
theorem c4_witness :
    insertZones (insertZones [(1, "Z1")] ["Z1", "Z2"]) ["Z1", "Z2"] =
      insertZones [(1, "Z1")] ["Z1", "Z2"] ∧
    insertMeasList (insertMeasList [(1, "temp", "C")] [("temp", "F"), ("RH", "%")])
        [("temp", "F"), ("RH", "%")] =
      insertMeasList [(1, "temp", "C")] [("temp", "F"), ("RH", "%")] ∧
    (∀ n, n ∈ ([(1, "Z1")] : ZonesTable).map Prod.snd →
      insertZone [(1, "Z1")] n = [(1, "Z1")]) ∧
    (∀ nu : String × String,
      nu.1 ∈ ([(1, "temp", "C")] : MeasTable).map (fun r => r.2.1) →
      insertMeas [(1, "temp", "C")] nu = [(1, "temp", "C")]) :=
  c4_idempotent_upsert [(1, "Z1")] [(1, "temp", "C")] ["Z1", "Z2"]
    [("temp", "F"), ("RH", "%")]

/-- C5: Zone-set derivation and determinism.  The derived zone list consists
exactly of the distinct first-underscore prefixes of the columns carrying
the `_temp` marker (excluding `Air_temperature`), is lexicographically
sorted and duplicate-free, and is invariant under any permutation of the
source's columns. -/
theorem c5_zone_set_derivation (df df2 : DataFrame)
    (hperm : df2.columns.Perm df.columns) :
    (∀ z, z ∈ zone_names df ↔ ∃ col ∈ zone_columns df, zoneOfCol col = z) ∧
    List.Sorted (· ≤ ·) (zone_names df) ∧
    (zone_names df).Nodup ∧
    zone_names df2 = zone_names df := by
  refine ⟨?_, List.sorted_insertionSort _ _,
    (List.perm_insertionSort _ _).nodup_iff.2 (List.nodup_dedup _), ?_⟩
  · intro z
    rw [zone_names, (List.perm_insertionSort _ _).mem_iff, List.mem_dedup,
      List.mem_map]
  · have h1 : List.Perm (zone_columns df2) (zone_columns df) := hperm.filter _
    have h2 : List.Perm ((zone_columns df2).map zoneOfCol).dedup
        ((zone_columns df).map zoneOfCol).dedup := (h1.map _).dedup
    exact List.eq_of_perm_of_sorted
      ((List.perm_insertionSort _ _).trans
        (h2.trans (List.perm_insertionSort _ _).symm))
      (List.sorted_insertionSort _ _) (List.sorted_insertionSort _ _)

/-- C5 witness: instantiated on the fixture frame and its column-reversed
variant. -/
theorem c5_witness :
    (∀ z, z ∈ zone_names wdf ↔ ∃ col ∈ zone_columns wdf, zoneOfCol col = z) ∧
    List.Sorted (· ≤ ·) (zone_names wdf) ∧
    (zone_names wdf).Nodup ∧
    zone_names wdfPerm = zone_names wdf :=
  c5_zone_set_derivation wdf wdfPerm (by decide)

/-- C6: Global-measurement exclusion.  Every emitted zone tuple arises from
a measurement-map entry whose name is not one of the ten global measurement
names (with the candidate column `<zone>_<name>` present in the source);
consequently, when measurement ids are unambiguous, no tuple carries the id
of a global measurement. -/
theorem c6_global_exclusion {df : DataFrame} {zns : List String}
    {zmap mmap : List (String × Nat)} {t : ZTuple}
    (ht : t ∈ zone_reading_data df zns zmap mmap) :
    (∃ z ∈ zns, ∃ p ∈ mmap, p.1 ∉ global_measurements ∧
      List.lookup z zmap = some t.2.1 ∧ t.2.2.1 = p.2 ∧
      (z ++ "_" ++ p.1) ∈ df.columns) ∧
    ∀ q ∈ mmap, q.1 ∈ global_measurements →
      (∀ p ∈ mmap, p.2 = q.2 → p.1 = q.1) → t.2.2.1 ≠ q.2 := by
  obtain ⟨row, hrow, zname, hz, zone_id, hlk, p, hp, hpg, hpc, rfl⟩ :=
    mem_zone_reading_data.1 ht
  refine ⟨⟨zname, hz, p, hp, hpg, hlk, rfl, hpc⟩, ?_⟩
  intro q hq hqg hinj he
  simp only at he
  have hpq : p.1 = q.1 := hinj p hp he
  exact hpg (hpq ▸ hqg)

/-- C6 witness: the NULL CO2 tuple of the fixture satisfies the exclusion
(in particular its measurement id is not that of `Cooling`). -/
theorem c6_witness :
    (∃ z ∈ ["Z1"], ∃ p ∈ [("temp", 1), ("CO2", 3), ("Cooling", 14)],
      p.1 ∉ global_measurements ∧
      List.lookup z [("Z1", 1)] =
        some ((Val.str "2024-01-01 00:00:00", 1, 3, SVal.null) : ZTuple).2.1 ∧
      ((Val.str "2024-01-01 00:00:00", 1, 3, SVal.null) : ZTuple).2.2.1 = p.2 ∧
      (z ++ "_" ++ p.1) ∈ wdf.columns) ∧
    ∀ q ∈ [("temp", 1), ("CO2", 3), ("Cooling", 14)],
      q.1 ∈ global_measurements →
      (∀ p ∈ [("temp", 1), ("CO2", 3), ("Cooling", 14)], p.2 = q.2 → p.1 = q.1) →
      ((Val.str "2024-01-01 00:00:00", 1, 3, SVal.null) : ZTuple).2.2.1 ≠ q.2 :=
  c6_global_exclusion (by decide)

/-- C7: Canonical timestamp.  After canonicalization succeeds (with parse
results in the representable range), the timestamp of every emitted zone
tuple and the leading cell of every outdoor tuple is a string in the
canonical `YYYY-MM-DD HH:MM:SS` shape. -/
theorem c7_canonical_timestamp {parse : Val → Option DateTime}
    {df df2 : DataFrame} (hc : canonTimestamps parse df = some df2)
    (_hrange : ∀ r ∈ df.rows, ∀ dt,
      parse (getCell r "Timestamp") = some dt → dt.InRange) :
    (∀ zns zmap mmap, ∀ t ∈ zone_reading_data df2 zns zmap mmap,
      ∃ s, t.1 = Val.str s ∧ isCanonicalTs s = true) ∧
    (∀ od, outdoor_data df2 = some od →
      ∀ r ∈ od, ∃ s rest, r = Val.str s :: rest ∧ isCanonicalTs s = true) := by
  obtain ⟨hcol, hall, hcols, hrows⟩ := canonTimestamps_eq_some hc
  have key : ∀ r2 ∈ df2.rows,
      ∃ s, getCell r2 "Timestamp" = Val.str s ∧ isCanonicalTs s = true := by
    intro r2 hr2
    rw [hrows] at hr2
    obtain ⟨r, hr, rfl⟩ := List.mem_map.1 hr2
    obtain ⟨dt, hdt, hget⟩ := getCell_canonRow (hall r hr)
    exact ⟨strftimeCanon dt, hget, isCanonical_strftime dt⟩
  constructor
  · intro zns zmap mmap t ht
    obtain ⟨row, hrow, _, _, _, _, _, _, _, _, rfl⟩ := mem_zone_reading_data.1 ht
    obtain ⟨s, hs, hcan⟩ := key row hrow
    exact ⟨s, by simpa using hs, hcan⟩
  · intro od hod r hr
    obtain ⟨hodep, _⟩ := outdoor_data_eq_some hod
    subst hodep
    obtain ⟨row, hrow, rfl⟩ := List.mem_map.1 hr
    obtain ⟨s, hs, hcan⟩ := key row hrow
    refine ⟨s, (outdoor_cols.tail).map (fun c => getCell row c), ?_, hcan⟩
    rw [show outdoor_cols = "Timestamp" :: outdoor_cols.tail from rfl]
    rw [List.map_cons, hs]
    rfl

/-- C7 witness: instantiated with a parse fixture sending every string cell
to midnight 2024-01-01; the fixture frame canonicalizes to itself. -/
theorem c7_witness :
    (∀ zns zmap mmap, ∀ t ∈ zone_reading_data wdf zns zmap mmap,
      ∃ s, t.1 = Val.str s ∧ isCanonicalTs s = true) ∧
    (∀ od, outdoor_data wdf = some od →
      ∀ r ∈ od, ∃ s rest, r = Val.str s :: rest ∧ isCanonicalTs s = true) :=
  @c7_canonical_timestamp wParse wdf wdf (by decide)
    (by
      intro r hr dt h
      have hre : r = wRow := by
        have := List.mem_singleton.1 hr
        exact this
      subst hre
      have hv : wParse (getCell wRow "Timestamp") =
          some ⟨2024, 1, 1, 0, 0, 0⟩ := rfl
      rw [hv] at h
      injection h with h2
      subst h2
      decide)

/-- C8: Unresolved-zone guard.  When a derived zone name is absent from the
zone lookup map, the transformer emits its diagnostic (given at least one
source row), emits nothing for that zone on any row, and every emitted
tuple's zone key still resolves through the lookup map (no dangling key);
the loop continues normally rather than failing. -/
theorem c8_unresolved_zone_guard {df : DataFrame} {zns : List String}
    {zmap mmap : List (String × Nat)} {zname : String}
    (hz : zname ∈ zns) (hnone : List.lookup zname zmap = none)
    (hne : df.rows ≠ []) :
    zoneWarning zname ∈ zone_warnings df zns zmap ∧
    (∀ row ∈ df.rows, emitZone df row zmap mmap zname = []) ∧
    ∀ t ∈ zone_reading_data df zns zmap mmap,
      ∃ z' ∈ zns, List.lookup z' zmap = some t.2.1 := by
  refine ⟨?_, ?_, ?_⟩
  · obtain ⟨r, hr⟩ := List.exists_mem_of_ne_nil df.rows hne
    unfold zone_warnings
    rw [List.mem_flatMap]
    exact ⟨r, hr, List.mem_filterMap.2 ⟨zname, hz, by simp [hnone]⟩⟩
  · intro row _
    unfold emitZone
    rw [hnone]
  · intro t ht
    obtain ⟨row, _, z', hz', zone_id, hlk, _, _, _, _, rfl⟩ :=
      mem_zone_reading_data.1 ht
    exact ⟨z', hz', hlk⟩

/-- C8 witness: zone `ZZ` is in the derived list but not in the lookup map;
its warning is emitted and no tuple dangles. -/
theorem c8_witness :
    zoneWarning "ZZ" ∈ zone_warnings wdf ["Z1", "ZZ"] [("Z1", 1)] ∧
    (∀ row ∈ wdf.rows,
      emitZone wdf row [("Z1", 1)] [("temp", 1), ("CO2", 3)] "ZZ" = []) ∧
    ∀ t ∈ zone_reading_data wdf ["Z1", "ZZ"] [("Z1", 1)] [("temp", 1), ("CO2", 3)],
      ∃ z' ∈ ["Z1", "ZZ"], List.lookup z' [("Z1", 1)] = some t.2.1 :=
  c8_unresolved_zone_guard (by decide) (by decide) (by decide)

theorem keys_zone_id_map (t : ZonesTable) :
    (zone_id_map t).map Prod.fst = t.map Prod.snd := by
  simp [zone_id_map, List.map_map]

/-- C9 counterexample: the claim says the load fails with SourceEmpty when
the table has zero rows, aborting before any database mutation.  But pandas
raises EmptyDataError only for an empty file; a header-only source parses
into a zero-row table and arrives as a successful read.  On `c9df` (named
columns, zero rows) the run reports no error and returns a database state
that differs from the input: the Measurements reference table has been
populated. -/
theorem c9_counterexample :
    c9df.rows.length = 0 ∧
    (runLoad wParse (Except.ok c9df) emptyDb).2.2 = none ∧
    (runLoad wParse (Except.ok c9df) emptyDb).1 ≠ emptyDb ∧
    (runLoad wParse (Except.ok c9df) emptyDb).1.measurements ≠ [] := by
  refine ⟨by decide, by decide, by decide, by decide⟩

/-- C9 amended: Source-error atomicity.  A missing file aborts as
SourceNotFound, an empty (unparseable) source file as SourceEmpty, any
other read failure — and any timestamp-canonicalization failure — as
SourceMalformed, and in every such case the returned database state is the
input state, untouched (the database phase, including connection, is never
entered).  A source that parses successfully — including a header-only
table with zero data rows — is not an error: the run proceeds into the
database phase. -/
theorem c9_source_error_atomicity (parse : Val → Option DateTime)
    (db : DbState) :
    runLoad parse (Except.error ReadError.fileNotFound) db =
      (db, [], some LoadError.sourceNotFound) ∧
    runLoad parse (Except.error ReadError.emptyData) db =
      (db, [], some LoadError.sourceEmpty) ∧
    runLoad parse (Except.error ReadError.otherError) db =
      (db, [], some LoadError.sourceMalformed) ∧
    (∀ df, canonTimestamps parse df = none →
      runLoad parse (Except.ok df) db =
        (db, [], some LoadError.sourceMalformed)) ∧
    ∀ df df2, canonTimestamps parse df = some df2 →
      runLoad parse (Except.ok df) db =
        ((runPipeline db df2).1, (runPipeline db df2).2, none) := by
  refine ⟨rfl, rfl, rfl, fun df h => by simp [runLoad, h],
    fun df df2 h => by simp [runLoad, h]⟩

/-- C9 witness: instantiated on the parse fixture, a database with one
pre-existing zone, and both a frame with no Timestamp column (whose
canonicalization fails) and the zero-row frame (which proceeds). -/
theorem c9_witness :
    runLoad wParse (Except.error ReadError.fileNotFound) c10db =
      (c10db, [], some LoadError.sourceNotFound) ∧
    runLoad wParse (Except.error ReadError.emptyData) c10db =
      (c10db, [], some LoadError.sourceEmpty) ∧
    runLoad wParse (Except.error ReadError.otherError) c10db =
      (c10db, [], some LoadError.sourceMalformed) ∧
    (∀ df, canonTimestamps wParse df = none →
      runLoad wParse (Except.ok df) c10db =
        (c10db, [], some LoadError.sourceMalformed)) ∧
    ∀ df df2, canonTimestamps wParse df = some df2 →
      runLoad wParse (Except.ok df) c10db =
        ((runPipeline c10db df2).1, (runPipeline c10db df2).2, none) :=
  c9_source_error_atomicity wParse c10db

/-- C10 counterexample: the claim asserts that any zone name already in the
database participates in candidate-column probing.  Here zone `ZX` is in
the Zones table, the probe-able column `ZX_CO2` exists, `CO2` is in the
measurement map and `(ZX, 1)` is in the zone map, the source has a row —
yet the run emits no zone reading at all, because the zone loop iterates
the column-derived `zone_names` list (empty here: no `ZX` temperature
column), not the database-derived map. -/
theorem c10_counterexample :
    (1, "ZX") ∈ c10db.zones ∧
    "ZX_CO2" ∈ c10df.columns ∧
    ("CO2", 3) ∈ measurement_id_map
      (insertMeasList c10db.measurements measurements_to_insert) ∧
    ("ZX", 1) ∈ zone_id_map (insertZones c10db.zones (zone_names c10df)) ∧
    c10df.rows ≠ [] ∧
    (runPipeline c10db c10df).1.zoneReadings = [] := by
  refine ⟨by decide, by decide, by decide, by decide, by decide, by decide⟩

/-- C10 amended: the measurement loop iterates the database-derived
measurement map, so a measurement already in the database (even one absent
from the static catalog) participates in probing and generates rows when
its candidate column exists; the zone loop, however, iterates the
column-derived zone list, so the emitted batch is exactly the unpivot over
`zone_names df` (database-only zones do not participate). -/
theorem c10_db_derived_measurements {db : DbState} {df : DataFrame}
    {mid : Nat} {m u z : String} {row : Row} {od : List (List Val)}
    (hdb : (mid, m, u) ∈ db.measurements)
    (hg : m ∉ global_measurements)
    (hz : z ∈ zone_names df)
    (hcol : (z ++ "_" ++ m) ∈ df.columns)
    (hrow : row ∈ df.rows)
    (hout : outdoor_data df = some od) :
    (∃ t ∈ (runPipeline db df).1.zoneReadings, t.2.2.1 = mid) ∧
    (runPipeline db df).1.zoneReadings = db.zoneReadings ++
      (zone_reading_data df (zone_names df)
        (zone_id_map (insertZones db.zones (zone_names df)))
        (measurement_id_map
          (insertMeasList db.measurements measurements_to_insert))).map
        bindTuple := by
  have hpipe : (runPipeline db df).1.zoneReadings = db.zoneReadings ++
      (zone_reading_data df (zone_names df)
        (zone_id_map (insertZones db.zones (zone_names df)))
        (measurement_id_map
          (insertMeasList db.measurements measurements_to_insert))).map
        bindTuple := by
    unfold runPipeline
    simp only [hout]
  refine ⟨?_, hpipe⟩
  have hzkey : z ∈ (zone_id_map (insertZones db.zones (zone_names df))).map
      Prod.fst := by
    rw [keys_zone_id_map]
    exact mem_insertZones_keys.2 (Or.inr hz)
  obtain ⟨zid, hzid⟩ := lookup_of_mem_keys hzkey
  have hmm : (m, mid) ∈ measurement_id_map
      (insertMeasList db.measurements measurements_to_insert) :=
    List.mem_map.2 ⟨(mid, m, u), insertMeasList_mem_of_mem hdb, rfl⟩
  refine ⟨bindTuple (getCell row "Timestamp", zid, mid,
    nullifyVal (getCell row (z ++ "_" ++ m))), ?_, rfl⟩
  rw [hpipe]
  refine List.mem_append_right _ (List.mem_map_of_mem _ ?_)
  exact mem_zone_reading_data.2
    ⟨row, hrow, z, hz, zid, hzid, (m, mid), hmm, hg, hcol, rfl⟩

/-- C10 amended witness: measurement `PM25` exists only in the database (not
in the catalog, not as a global), zone `ZX` is derived from `ZX_temp`, and
the probe of `ZX_PM25` emits a row carrying PM25's database id. -/
theorem c10_witness :
    (∃ t ∈ (runPipeline c10wdb c10wdf).1.zoneReadings, t.2.2.1 = 1) ∧
    (runPipeline c10wdb c10wdf).1.zoneReadings = c10wdb.zoneReadings ++
      (zone_reading_data c10wdf (zone_names c10wdf)
        (zone_id_map (insertZones c10wdb.zones (zone_names c10wdf)))
        (measurement_id_map
          (insertMeasList c10wdb.measurements measurements_to_insert))).map
        bindTuple :=
  @c10_db_derived_measurements c10wdb c10wdf 1 "PM25" "ugm3" "ZX"
    [("Timestamp", Val.str "2024-01-01 00:00:00"),
     ("ZX_temp", Val.num 20), ("ZX_PM25", Val.num 7)]
    [[Val.str "2024-01-01 00:00:00", Val.nan, Val.nan, Val.nan,
      Val.nan, Val.nan, Val.nan, Val.nan, Val.nan, Val.nan, Val.nan]]
    (by decide) (by decide) (by decide) (by decide) (by decide) (by decide)

end NetZero
